import Mathlib

/-!
Verification of the docker-wrapper CLI (src/main.rs) against its
natural-language specification.

The program is shallowly embedded as follows.

* Rust `String` / `&str` values are modelled as `List Char` (named `Str`
  below).  The string operations the program uses — `split(',')`,
  `starts_with`, byte slicing past an ASCII prefix, `join(",")`, `trim`,
  equality — become structural functions on `List Char`, so every
  definition is executable and provable by induction.  `trim` removes the
  four ASCII whitespace characters; the program only ever compares trimmed
  arguments against the ASCII literal `"--mount"`, for which this agrees
  with Rust's Unicode-aware `str::trim`.
* External process execution is abstracted by oracles passed as
  parameters: `proc` maps an argument vector to either a spawn failure
  (`Except.error`, the `io::Error` propagated by the `?` operator) or a
  `ProcOut` carrying the child's exit code and captured stdout; `exitOf`
  gives the exit code of the finally forwarded command.
* Fallible Rust functions returning `anyhow::Result` become
  `Except String`.
* The bootstrap functions (`ensure_docker` and its callees) perform only
  external commands and filesystem checks; they are modelled as trace
  producers: a `World` records the boolean outcome of each external
  action, and running the model returns the overall result together with
  the ordered list of side-effecting steps that were executed.
-/

namespace DockerWrapper

/-- Rust strings, modelled as lists of characters. -/
abbrev Str := List Char

/-- Rust `str::trim`: drop whitespace from both ends
(src/main.rs line 238, `arg.trim()`). -/
def trim (s : Str) : Str :=
  ((s.dropWhile Char.isWhitespace).reverse.dropWhile Char.isWhitespace).reverse

/-- Rust `str::starts_with` (src/main.rs line 227): `starts_with s p` is
true when `p` is an initial segment of `s`. -/
def starts_with : Str → Str → Bool
  | _, [] => true
  | [], _ :: _ => false
  | c :: s, p :: ps => c == p && starts_with s ps

/-- The container-creation subcommand checked at src/main.rs line 213. -/
def createStr : Str := "create".data

/-- The mount-option flag checked at src/main.rs line 238. -/
def mountFlag : Str := "--mount".data

/-- The option key `source=` matched at src/main.rs line 227. -/
def sourceKey : Str := "source=".data

/-- `DISTRO_NAME` constant, src/main.rs line 10. -/
def DISTRO_NAME : Str := "custom-docker-host".data

/-- Result of a successfully spawned external process: its exit code and
captured standard output. -/
structure ProcOut where
  exitCode : Nat
  stdout : Str
deriving DecidableEq

/-- `fn output` (src/main.rs lines 29-39) for the `set_context = false`
case used by `convert_path`: spawn the command and return the captured
stdout.  The child's exit status is never inspected — only a spawn
failure (the `?` on `cmd.output()`) is an error. -/
def output (proc : List Str → Except String ProcOut) (args : List Str) :
    Except String Str :=
  (proc args).map ProcOut.stdout

/-- The argument vector `convert_path` spawns:
`wsl -d DISTRO_NAME -e wslpath -u <path>` (src/main.rs line 202). -/
def wslpath_argv (p : Str) : List Str :=
  ["wsl".data, "-d".data, DISTRO_NAME, "-e".data, "wslpath".data, "-u".data, p]

/-- `fn convert_path` (src/main.rs lines 200-206): run `wslpath -u` inside
the guest and return its trimmed stdout. -/
def convert_path (proc : List Str → Except String ProcOut) (p : Str) :
    Except String Str :=
  (output proc (wslpath_argv p)).map trim

/-- The per-option body of the loop at src/main.rs lines 226-232: an
option starting with `source=` has the remainder of the option converted
and re-prefixed; any other option is left unchanged.  `conv` abstracts
`convert_path` (in the program, `convert_path` with the ambient process
spawner). -/
def rewrite_opt (conv : Str → Except String Str) (opt : Str) :
    Except String Str :=
  if starts_with opt sourceKey then
    (conv (opt.drop sourceKey.length)).map (fun path => sourceKey ++ path)
  else
    Except.ok opt

/-- The `for opt in &mut opts` loop of src/main.rs lines 226-232, with the
`?` on `convert_path` aborting at the first conversion failure. -/
def rewrite_opts (conv : Str → Except String Str) :
    List Str → Except String (List Str)
  | [] => Except.ok []
  | opt :: rest =>
    match rewrite_opt conv opt with
    | Except.error e => Except.error e
    | Except.ok newOpt =>
      match rewrite_opts conv rest with
      | Except.error e => Except.error e
      | Except.ok newRest => Except.ok (newOpt :: newRest)

/-- The body of the `is_mount_option` branch, src/main.rs lines 225-233:
split the argument on commas, rewrite each `source=` option, and rejoin
with commas. -/
def rewrite_mount_spec (conv : Str → Except String Str) (spec : Str) :
    Except String Str :=
  (rewrite_opts conv (spec.splitOn ',')).map (List.intercalate [','])

/-- The loop of `fn fix_bind_mount_path` (src/main.rs lines 221-241),
with the `is_mount_option` flag threaded explicitly: when the flag is
set, the current argument is a mount specification and is rewritten (and
the flag cleared, the `continue` skipping the flag test); otherwise the
argument is kept and the flag is set exactly when the trimmed argument is
`--mount`. -/
def fix_go (conv : Str → Except String Str) :
    Bool → List Str → Except String (List Str)
  | _, [] => Except.ok []
  | true, arg :: rest =>
    match rewrite_mount_spec conv arg with
    | Except.error e => Except.error e
    | Except.ok newArg =>
      match fix_go conv false rest with
      | Except.error e => Except.error e
      | Except.ok newRest => Except.ok (newArg :: newRest)
  | false, arg :: rest =>
    match fix_go conv (trim arg == mountFlag) rest with
    | Except.error e => Except.error e
    | Except.ok newRest => Except.ok (arg :: newRest)

/-- `fn fix_bind_mount_path` (src/main.rs lines 220-244):
`is_mount_option` starts out false. -/
def fix_bind_mount_path (conv : Str → Except String Str)
    (args : List Str) : Except String (List Str) :=
  fix_go conv false args

/-- `fn modify_args` (src/main.rs lines 208-218): an empty vector is
returned as-is; a vector whose first element is `create` goes through
`fix_bind_mount_path`; anything else is returned unchanged. -/
def modify_args (conv : Str → Except String Str) :
    List Str → Except String (List Str)
  | [] => Except.ok []
  | arg0 :: rest =>
    if arg0 = createStr then fix_bind_mount_path conv (arg0 :: rest)
    else Except.ok (arg0 :: rest)

/-- The argument vector `fn main` (src/main.rs lines 250-256) finally
executes: the native CLI path followed by the possibly rewritten
arguments.  `Except.error` is a rewriting failure propagated by the `?`
on `modify_args`. -/
def forwarded_argv (cli : Str) (conv : Str → Except String Str)
    (args : List Str) : Except String (List Str) :=
  (modify_args conv args).map (fun a => cli :: a)

/-- The process exit code of `fn main` (src/main.rs lines 246-260), given
that `ensure_native_docker_cli` and `ensure_docker` succeeded.  `exitOf`
gives the exit code of the forwarded command; `run` turns it into the
boolean `status.success()`, and `ensure!(..., "docker failed")` together
with `fn main() -> Result<()>` makes the process exit 0 on `Ok` and 1 on
`Err` (the Rust `Termination` instance for `Result`). -/
def main_exit_code (cli : Str) (conv : Str → Except String Str)
    (exitOf : List Str → Nat) (args : List Str) : Nat :=
  match forwarded_argv cli conv args with
  | Except.error _ => 1
  | Except.ok argv => if exitOf argv = 0 then 0 else 1

/-- The externally observable side-effecting steps of the readiness
routine `ensure_docker` and its callees. -/
inductive Event where
  | probeDocker
  | createDirAll
  | downloadRootfs
  | importRootfs
  | installDocker
  | writeDetachKeys
  | writeDaemonJson
  | startDocker
deriving DecidableEq

/-- Boolean outcomes of the external actions the bootstrap can perform:
whether `which docker` succeeds in the guest, whether `create_dir_all`
succeeds, whether the rootfs archive file already exists, and whether
each spawned command exits successfully. -/
structure World where
  probeOk : Bool
  createDirOk : Bool
  archiveExists : Bool
  downloadOk : Bool
  importOk : Bool
  installOk : Bool
  detachKeysOk : Bool
  daemonJsonOk : Bool
deriving DecidableEq

/-- A bootstrap computation: its result and the ordered trace of executed
side-effecting steps.  Steps executed before a failure stay in the
trace. -/
abbrev Trace := Except String Unit × List Event

/-- Sequencing of trace computations: on failure the continuation does
not run (the `?` / `ensure!` early return). -/
def tseq (p : Trace) (k : Unit → Trace) : Trace :=
  match p with
  | (Except.error e, evs) => (Except.error e, evs)
  | (Except.ok _, evs) =>
    match k () with
    | (r, evs2) => (r, evs ++ evs2)

/-- One external step: the step is recorded as executed, and the
computation fails with `msg` when the step's outcome is bad.  A spawn
failure and `ensure!` on a false result are folded into the single
boolean outcome, since both abort with an error. -/
def step (ev : Event) (ok : Bool) (msg : String) : Trace :=
  (if ok then Except.ok () else Except.error msg, [ev])

/-- `fn download_and_import_rootfs` (src/main.rs lines 119-160):
create the distro directory, download the rootfs archive with curl only
when the file does not already exist, then import the distro. -/
def download_and_import_rootfs (w : World) : Trace :=
  tseq (step Event.createDirAll w.createDirOk "failed to create distro directory") fun _ =>
  tseq (if w.archiveExists then (Except.ok (), [])
        else step Event.downloadRootfs w.downloadOk "failed to download rootfs") fun _ =>
  step Event.importRootfs w.importOk "failed to import distro"

/-- `fn setup_docker_on_distro` (src/main.rs lines 162-198): install the
engine, write the detach-keys client config, write the daemon config. -/
def setup_docker_on_distro (w : World) : Trace :=
  tseq (step Event.installDocker w.installOk "failed to install docker engine") fun _ =>
  tseq (step Event.writeDetachKeys w.detachKeysOk "failed to set up detach keys") fun _ =>
  step Event.writeDaemonJson w.daemonJsonOk "failed to set up buildkit"

/-- `fn setup_docker_distro` (src/main.rs lines 109-117). -/
def setup_docker_distro (w : World) : Trace :=
  tseq (download_and_import_rootfs w) fun _ => setup_docker_on_distro w

/-- `fn ensure_docker` (src/main.rs lines 100-107): probe with
`which docker` inside the guest (its boolean outcome is `w.probeOk`; the
probe itself spawns successfully), bootstrap only when the probe fails,
then always attempt `service docker start`, whose boolean result the
source discards. -/
def ensure_docker (w : World) : Trace :=
  tseq (Except.ok (), [Event.probeDocker]) fun _ =>
  tseq (if w.probeOk then (Except.ok (), []) else setup_docker_distro w) fun _ =>
  (Except.ok (), [Event.startDocker])

/-! ### Helper lemmas about the argument rewriter -/

theorem beq_false_of_ne {a b : Str} (h : a ≠ b) : (a == b) = false := by
  simpa using h

/-- Scanning a run of arguments none of which trims to `--mount` leaves
them unchanged and keeps the flag state clear. -/
theorem fix_go_clean_append (conv : Str → Except String Str)
    (pre rest : List Str) (h : ∀ a ∈ pre, trim a ≠ mountFlag) :
    fix_go conv false (pre ++ rest) =
      (fix_go conv false rest).map (fun l => pre ++ l) := by
  induction pre with
  | nil =>
    cases hx : fix_go conv false rest <;> simp [hx, Except.map]
  | cons a pre ih =>
    have hb : (trim a == mountFlag) = false :=
      beq_false_of_ne (h a (by simp))
    have ih2 := ih (fun x hx => h x (by simp [hx]))
    cases hx : fix_go conv false rest <;>
      simp [List.cons_append, fix_go, hb, ih2, hx, Except.map]

/-- A run of arguments none of which trims to `--mount` is left entirely
unchanged by the scan. -/
theorem fix_go_clean_id (conv : Str → Except String Str)
    (post : List Str) (h : ∀ a ∈ post, trim a ≠ mountFlag) :
    fix_go conv false post = Except.ok post := by
  have h2 := fix_go_clean_append conv post [] h
  simpa [fix_go, Except.map] using h2

/-- Relational description of what the option loop does to one option:
a `source=` option becomes `source=` followed by a successful conversion
of its value; any other option is kept verbatim. -/
def OptRewrites (conv : Str → Except String Str) (opt newOpt : Str) : Prop :=
  (starts_with opt sourceKey = true →
    ∃ out, conv (opt.drop sourceKey.length) = Except.ok out ∧
      newOpt = sourceKey ++ out) ∧
  (starts_with opt sourceKey = false → newOpt = opt)

theorem rewrite_opts_of_forall2 (conv : Str → Except String Str)
    {opts newOpts : List Str}
    (h : List.Forall₂ (OptRewrites conv) opts newOpts) :
    rewrite_opts conv opts = Except.ok newOpts := by
  induction h with
  | nil => rfl
  | @cons a b l1 l2 h1 _ ih =>
    rcases h1 with ⟨hT, hF⟩
    cases hs : starts_with a sourceKey with
    | false =>
      simp [rewrite_opts, rewrite_opt, hs, hF hs, ih]
    | true =>
      obtain ⟨out, hc, hb⟩ := hT hs
      simp [rewrite_opts, rewrite_opt, hs, hc, hb, ih, Except.map]

theorem starts_with_append_drop :
    ∀ (p s : Str), starts_with s p = true → p ++ s.drop p.length = s
  | [], s, _ => by simp
  | _ :: _, [], h => by simp [starts_with] at h
  | p :: ps, c :: s, h => by
    simp only [starts_with, Bool.and_eq_true, beq_iff_eq] at h
    simp [h.1, starts_with_append_drop ps s h.2]

/-- With the identity translator, the option loop is the identity. -/
theorem rewrite_opt_id (opt : Str) :
    rewrite_opt (fun p => Except.ok p) opt = Except.ok opt := by
  by_cases hs : starts_with opt sourceKey = true
  · simp [rewrite_opt, hs, Except.map, starts_with_append_drop sourceKey opt hs]
  · simp [rewrite_opt, Bool.of_not_eq_true hs]

theorem rewrite_opts_id (opts : List Str) :
    rewrite_opts (fun p => Except.ok p) opts = Except.ok opts := by
  induction opts with
  | nil => rfl
  | cons o os ih => simp [rewrite_opts, rewrite_opt_id, ih]

/-- Options without a `source=` key pass through the loop unchanged,
whatever the translator is. -/
theorem rewrite_opts_no_source (conv : Str → Except String Str)
    (opts : List Str) (h : ∀ opt ∈ opts, starts_with opt sourceKey = false) :
    rewrite_opts conv opts = Except.ok opts := by
  induction opts with
  | nil => rfl
  | cons o os ih =>
    simp [rewrite_opts, rewrite_opt, h o (by simp),
      ih (fun x hx => h x (by simp [hx]))]

/-! ### Claim theorems -/

/-- C3: for every argument vector whose first element is not the
container-creation subcommand `create`, the argument rewriter
`modify_args` returns the vector completely unchanged (and succeeds). -/
theorem modify_args_non_create_id (conv : Str → Except String Str)
    (args : List Str) (h : args.head? ≠ some createStr) :
    modify_args conv args = Except.ok args := by
  cases args with
  | nil => rfl
  | cons a rest =>
    have ha : a ≠ createStr := by simpa using h
    simp [modify_args, ha]

/-- Witness for C3: a `run` invocation passes through untouched. -/
theorem modify_args_non_create_id_witness :
    modify_args (fun p => Except.ok p) ["run".data, "C:\\Users\\me".data] =
      Except.ok ["run".data, "C:\\Users\\me".data] :=
  modify_args_non_create_id _ _ (by decide)

/-- C5: the comma split/rejoin rewrite of a Mount Specification is
lossless: a specification none of whose options starts with `source=` is
returned unchanged (for any translator), and with the identity translator
the rewrite is the identity on every specification, whatever the number
of options. -/
theorem rewrite_mount_spec_lossless :
    (∀ (conv : Str → Except String Str) (spec : Str),
      (∀ opt ∈ spec.splitOn ',', starts_with opt sourceKey = false) →
      rewrite_mount_spec conv spec = Except.ok spec) ∧
    (∀ spec : Str,
      rewrite_mount_spec (fun p => Except.ok p) spec = Except.ok spec) := by
  constructor
  · intro conv spec h
    simp [rewrite_mount_spec, rewrite_opts_no_source conv _ h, Except.map,
      List.intercalate_splitOn spec ',']
  · intro spec
    simp [rewrite_mount_spec, rewrite_opts_id, Except.map,
      List.intercalate_splitOn spec ',']

/-- Witness for C5: a sourceless specification survives even a failing
translator, and a full specification round-trips under the identity
translator. -/
theorem rewrite_mount_spec_lossless_witness :
    rewrite_mount_spec (fun _ => Except.error "conversion failed")
        "type=bind,target=/data".data =
      Except.ok "type=bind,target=/data".data ∧
    rewrite_mount_spec (fun p => Except.ok p)
        "type=bind,source=/c/x,target=/y".data =
      Except.ok "type=bind,source=/c/x,target=/y".data :=
  ⟨rewrite_mount_spec_lossless.1 _ _ (by decide),
   rewrite_mount_spec_lossless.2 _⟩

/-- C9: the rewriter is total and in-bounds: the empty vector is returned
unchanged with success, and a creation vector whose last element is the
flag `--mount` with nothing after it (and no earlier mount flag) causes
no error and no change to any element. -/
theorem modify_args_total_trailing_flag (conv : Str → Except String Str)
    (pre : List Str) (h : ∀ a ∈ pre, trim a ≠ mountFlag) :
    modify_args conv [] = Except.ok [] ∧
    modify_args conv (createStr :: pre ++ [mountFlag]) =
      Except.ok (createStr :: pre ++ [mountFlag]) := by
  refine ⟨rfl, ?_⟩
  have hcr : trim createStr ≠ mountFlag := by decide
  have hclean : ∀ a ∈ createStr :: pre, trim a ≠ mountFlag := by
    intro a ha
    rcases List.mem_cons.mp ha with h1 | h1
    · simpa [h1] using hcr
    · exact h a h1
  have hlast : fix_go conv false [mountFlag] = Except.ok [mountFlag] := by
    simp [fix_go]
  have happ := fix_go_clean_append conv (createStr :: pre) [mountFlag] hclean
  simp only [List.cons_append] at happ
  simp [modify_args, fix_bind_mount_path, happ, hlast, Except.map]

/-- Witness for C9: `create -i --mount` with a dangling flag. -/
theorem modify_args_total_trailing_flag_witness :
    modify_args (fun p => Except.ok p) [] = Except.ok [] ∧
    modify_args (fun p => Except.ok p) (createStr :: ["-i".data] ++ [mountFlag]) =
      Except.ok (createStr :: ["-i".data] ++ [mountFlag]) :=
  modify_args_total_trailing_flag _ _ (by decide)

/-- C10: the mount-flag state is consumed by exactly one following
argument: in `create --mount --mount <spec>` the second `--mount` is
consumed as a (sourceless, hence unchanged) specification instead of
acting as a flag, so the final argument is not rewritten — the whole
vector is returned unchanged for every translator. -/
theorem mount_flag_consumed_as_spec (conv : Str → Except String Str)
    (s : Str) (h : trim s ≠ mountFlag) :
    modify_args conv [createStr, mountFlag, mountFlag, s] =
      Except.ok [createStr, mountFlag, mountFlag, s] := by
  have h1 : (trim createStr == mountFlag) = false := by decide
  have h2 : (trim mountFlag == mountFlag) = true := by decide
  have h3 : (trim s == mountFlag) = false := beq_false_of_ne h
  have h4 : rewrite_mount_spec conv mountFlag = Except.ok mountFlag := by
    have hsp : mountFlag.splitOn ',' = [mountFlag] := by decide
    have hns : ∀ opt ∈ [mountFlag], starts_with opt sourceKey = false := by decide
    simp only [rewrite_mount_spec, hsp]
    rw [rewrite_opts_no_source conv [mountFlag] hns]
    simp only [Except.map]
    exact congrArg Except.ok (by decide)
  simp [modify_args, fix_bind_mount_path, fix_go, h1, h2, h3, h4]

/-- Witness for C10: a bind-mount specification after a doubled flag is
left alone even though it carries a `source=` option. -/
theorem mount_flag_consumed_as_spec_witness :
    modify_args (fun _ => Except.error "must not be called")
        [createStr, mountFlag, mountFlag, "type=bind,source=X,target=/y".data] =
      Except.ok [createStr, mountFlag, mountFlag,
        "type=bind,source=X,target=/y".data] :=
  mount_flag_consumed_as_spec _ _ (by decide)

/-- C4: in a creation vector, the argument immediately after an argument
trimming to `--mount` has each `source=` option's value replaced by the
translator's output for the original value, while every other option —
`type=`, `target=`, unknown keys — is preserved verbatim and the
comma-separated option order is kept (`List.Forall₂` relates options
pairwise in order); all other arguments of the vector are unchanged. -/
theorem modify_args_rewrites_mount_source (conv : Str → Except String Str)
    (pre post : List Str) (flag spec : Str) (newOpts : List Str)
    (hpre : ∀ a ∈ pre, trim a ≠ mountFlag)
    (hflag : trim flag = mountFlag)
    (hpost : ∀ a ∈ post, trim a ≠ mountFlag)
    (hopts : List.Forall₂ (OptRewrites conv) (spec.splitOn ',') newOpts) :
    modify_args conv (createStr :: pre ++ flag :: spec :: post) =
      Except.ok
        (createStr :: pre ++ flag :: List.intercalate [','] newOpts :: post) := by
  have hcr : trim createStr ≠ mountFlag := by decide
  have hclean : ∀ a ∈ createStr :: pre, trim a ≠ mountFlag := by
    intro a ha
    rcases List.mem_cons.mp ha with h1 | h1
    · simpa [h1] using hcr
    · exact hpre a h1
  have hflagb : (trim flag == mountFlag) = true := by simp [hflag]
  have hspec : rewrite_mount_spec conv spec =
      Except.ok (List.intercalate [','] newOpts) := by
    simp [rewrite_mount_spec, rewrite_opts_of_forall2 conv hopts, Except.map]
  have hmid : fix_go conv false (flag :: spec :: post) =
      Except.ok (flag :: List.intercalate [','] newOpts :: post) := by
    simp [fix_go, hflagb, hspec, fix_go_clean_id conv post hpost]
  have happ := fix_go_clean_append conv (createStr :: pre)
    (flag :: spec :: post) hclean
  simp only [List.cons_append] at happ
  simp [modify_args, fix_bind_mount_path, happ, hmid, Except.map]

/-- Witness for C4: the spec example
`create --mount type=bind,source=C:\Users\me,target=/data` with a
translator answering `/mnt/c/Users/me`. -/
theorem modify_args_rewrites_mount_source_witness :
    modify_args (fun _ => Except.ok "/mnt/c/Users/me".data)
        [createStr, mountFlag, "type=bind,source=C:\\Users\\me,target=/data".data] =
      Except.ok [createStr, mountFlag,
        "type=bind,source=/mnt/c/Users/me,target=/data".data] := by
  have hopts : List.Forall₂
      (OptRewrites (fun _ => Except.ok "/mnt/c/Users/me".data))
      (("type=bind,source=C:\\Users\\me,target=/data".data).splitOn ',')
      ["type=bind".data, "source=/mnt/c/Users/me".data, "target=/data".data] := by
    have hsp : ("type=bind,source=C:\\Users\\me,target=/data".data).splitOn ',' =
        ["type=bind".data, "source=C:\\Users\\me".data, "target=/data".data] := by
      decide
    rw [hsp]
    refine List.Forall₂.cons ⟨?_, ?_⟩ (List.Forall₂.cons ⟨?_, ?_⟩
      (List.Forall₂.cons ⟨?_, ?_⟩ List.Forall₂.nil))
    · intro hx; exact absurd hx (by decide)
    · intro _; rfl
    · intro _; exact ⟨"/mnt/c/Users/me".data, rfl, by decide⟩
    · intro hx; exact absurd hx (by decide)
    · intro hx; exact absurd hx (by decide)
    · intro _; rfl
  have h := modify_args_rewrites_mount_source
    (fun _ => Except.ok "/mnt/c/Users/me".data) [] [] mountFlag
    "type=bind,source=C:\\Users\\me,target=/data".data
    ["type=bind".data, "source=/mnt/c/Users/me".data, "target=/data".data]
    (by simp) (by decide) (by simp) hopts
  have hint : List.intercalate [',']
      ["type=bind".data, "source=/mnt/c/Users/me".data, "target=/data".data] =
      "type=bind,source=/mnt/c/Users/me,target=/data".data := by decide
  simpa [hint] using h

/-- C1 counterexample: with the forwarded command exiting 2 on the plain
vector `ps`, the tool's own exit status is 1, not 2 — `main` turns the
child's status into the boolean `status.success()` and exits 1 through
`ensure!(..., "docker failed")`, so the exact exit code is not
mirrored. -/
theorem main_exit_code_not_mirrored :
    main_exit_code "docker".data (fun p => Except.ok p) (fun _ => 2)
        ["ps".data] = 1 ∧
    main_exit_code "docker".data (fun p => Except.ok p) (fun _ => 2)
        ["ps".data] ≠ 2 := by
  constructor <;> decide

/-- C1 amended: the tool's exit status mirrors the forwarded command's
exit status only as a boolean — it is 0 exactly when the forwarded
command exits 0, and it is the fixed code 1 (an engine failure is not
swallowed, but its code is not preserved) whenever the forwarded command
exits non-zero. -/
theorem main_exit_code_mirrors_success (cli : Str)
    (conv : Str → Except String Str) (exitOf : List Str → Nat)
    (args newArgs : List Str)
    (h : modify_args conv args = Except.ok newArgs) :
    (main_exit_code cli conv exitOf args = 0 ↔ exitOf (cli :: newArgs) = 0) ∧
    (exitOf (cli :: newArgs) ≠ 0 →
      main_exit_code cli conv exitOf args = 1) := by
  simp only [main_exit_code, forwarded_argv, h, Except.map]
  by_cases hz : exitOf (cli :: newArgs) = 0 <;> simp [hz]

/-- Witness for the amended C1, at a forwarded exit code of 3. -/
theorem main_exit_code_mirrors_success_witness :
    (main_exit_code "docker".data (fun p => Except.ok p) (fun _ => 3)
        ["ps".data] = 0 ↔
      (fun (_ : List Str) => (3 : Nat)) ("docker".data :: ["ps".data]) = 0) ∧
    ((fun (_ : List Str) => (3 : Nat)) ("docker".data :: ["ps".data]) ≠ 0 →
      main_exit_code "docker".data (fun p => Except.ok p) (fun _ => 3)
        ["ps".data] = 1) :=
  main_exit_code_mirrors_success "docker".data (fun p => Except.ok p)
    (fun _ => 3) ["ps".data] ["ps".data] rfl

/-- C2 counterexample: the program has no reserved-subcommand dispatch at
all — an argument vector whose first element is `stop-daemon` or
`reset-registration` is forwarded to the engine client verbatim instead
of triggering a maintenance action. -/
theorem reserved_names_are_forwarded :
    forwarded_argv "docker".data (fun p => Except.ok p) ["stop-daemon".data] =
      Except.ok ["docker".data, "stop-daemon".data] ∧
    forwarded_argv "docker".data (fun p => Except.ok p)
        ["reset-registration".data] =
      Except.ok ["docker".data, "reset-registration".data] := by
  constructor <;> rfl

/-- C2 amended: `main` recognizes no reserved maintenance subcommands;
every vector whose first element is one of the documented maintenance
names falls through to normal forwarding and reaches the engine client
unchanged. -/
theorem no_reserved_subcommand_dispatch (cli : Str)
    (conv : Str → Except String Str) (args : List Str)
    (h : args.head? = some "stop-daemon".data ∨
      args.head? = some "reset-registration".data) :
    forwarded_argv cli conv args = Except.ok (cli :: args) := by
  cases args with
  | nil => simp at h
  | cons a rest =>
    have ha : a ≠ createStr := by
      rcases h with h | h <;>
        · simp only [List.head?_cons, Option.some.injEq] at h
          subst h
          decide
    simp [forwarded_argv, modify_args, ha, Except.map]

/-- Witness for the amended C2: `stop-daemon` reaches the engine. -/
theorem no_reserved_subcommand_dispatch_witness :
    forwarded_argv "docker".data (fun _ => Except.error "unused")
        ["stop-daemon".data, "-f".data] =
      Except.ok ["docker".data, "stop-daemon".data, "-f".data] :=
  no_reserved_subcommand_dispatch _ _ _ (Or.inl (by decide))

/-- C6: evaluation at the failing input.  When the path-conversion
utility exits non-zero (exit code 1, empty stdout) on the candidate path
`C:\bad`, `convert_path` does not fail — `output` never inspects the
child's exit status — and the whole command proceeds successfully with
the `source=` value replaced by the empty captured stdout, leaving a
silently wrong bind mount instead of the fatal failure the
specification requires. -/
theorem convert_path_ignores_exit_code :
    convert_path (fun _ => Except.ok ⟨1, []⟩) "C:\\bad".data = Except.ok [] ∧
    modify_args (convert_path (fun _ => Except.ok ⟨1, []⟩))
        [createStr, mountFlag, "type=bind,source=C:\\bad,target=/d".data] =
      Except.ok [createStr, mountFlag, "type=bind,source=,target=/d".data] := by
  constructor <;> rfl

/-- C7: the readiness routine is idempotent — whenever the liveness probe
(`which docker` inside the guest) succeeds, `ensure_docker` performs no
bootstrap side effect (no download, no import, no engine install, no
configuration write: its trace is exactly the probe followed by the
idempotent service start) and returns success.  The routine is a pure
function of the world, so a second consecutive call on an already-running
engine behaves identically. -/
theorem ensure_docker_no_bootstrap_when_ready (w : World)
    (h : w.probeOk = true) :
    ensure_docker w = (Except.ok (), [Event.probeDocker, Event.startDocker]) := by
  simp [ensure_docker, tseq, h]

/-- Witness for C7: a fully healthy world. -/
theorem ensure_docker_no_bootstrap_when_ready_witness :
    ensure_docker ⟨true, true, true, true, true, true, true, true⟩ =
      (Except.ok (), [Event.probeDocker, Event.startDocker]) :=
  ensure_docker_no_bootstrap_when_ready _ rfl

/-- C8: during bootstrap (with the distro-directory creation
succeeding), the rootfs download step executes if and only if the archive
file does not already exist — file existence is the sole gate, with no
integrity re-check in the model or the code. -/
theorem download_iff_archive_missing (w : World) (h : w.createDirOk = true) :
    Event.downloadRootfs ∈ (download_and_import_rootfs w).2 ↔
      w.archiveExists = false := by
  obtain ⟨p, cd, ae, dl, im, ins, dk, dj⟩ := w
  replace h : cd = true := h
  subst h
  revert p ins dk dj
  cases ae <;> cases dl <;> cases im <;> decide

/-- Witness for C8: with the archive absent, the download runs. -/
theorem download_iff_archive_missing_witness :
    Event.downloadRootfs ∈
      (download_and_import_rootfs ⟨true, true, false, true, true, true, true, true⟩).2 :=
  (download_iff_archive_missing ⟨true, true, false, true, true, true, true, true⟩ rfl).mpr rfl

end DockerWrapper
